import Mathlib

/-!
Formal model of the caregiver-stress screening calculator (app.py) and of the
keep-alive probe script, with theorems checking the written specification.
Python floats are modelled as rationals, fallible code as Except or Option,
and external library calls (the classifier, the SHAP explainer, selenium) as
oracles supplied to the modelled control flow.
-/

namespace CaregiverApp

/-- Fixed ten-feature schema order, the FINAL_FEATURES constant of app.py. -/
def FINAL_FEATURES : List String :=
  ["daydurG", "healthR", "age_G", "adlR", "caredurG",
   "healthG", "ageR", "adlG", "hukou_cityR", "is_citycentre"]

/-- Input record: a mapping from feature name to value in insertion order, as
a Python dict built by the form; values are modelled as rationals. -/
abbrev InputDict := List (String × ℚ)

/-- Model of ensure_feature_dataframe: the one-row frame built from the input
dict has the dict keys as columns; the required columns absent from it are
collected (in feature_order order) and raised as a ValueError when any exist;
otherwise the row is reindexed into feature_order, each cell being the dict
value looked up by column name. -/
def ensure_feature_dataframe (input_dict : InputDict) (feature_order : List String) :
    Except (List String) (List (String × Option ℚ)) :=
  let cols := input_dict.map Prod.fst
  let missing := feature_order.filter (fun c => ! cols.contains c)
  if missing.isEmpty then
    .ok (feature_order.map (fun c => (c, input_dict.lookup c)))
  else
    .error missing

/-- JSON value stored under a key of the threshold file, at the granularity
load_threshold needs: either a value that float(...) converts (a number), or
one on which float(...) raises. -/
inductive JVal where
  | num (q : ℚ)
  | nonNumeric
deriving DecidableEq

/-- State of the threshold file on disk: absent, unreadable or not valid JSON,
or a valid JSON object given by its key/value entries. -/
inductive ThresholdFile where
  | missing
  | malformed
  | valid (entries : List (String × JVal))
deriving DecidableEq

/-- Model of load_threshold: an absent file returns the default; any failure
while reading, decoding, or converting the value (malformed JSON, or a value
that float rejects) is caught and returns the default; an absent key falls
back to the default through d.get(key, default); a numeric value under the
key is returned.  The function is total: no input makes it raise. -/
def load_threshold (file : ThresholdFile) (key : String) (default : ℚ) : ℚ :=
  match file with
  | .missing => default
  | .malformed => default
  | .valid d =>
    match d.lookup key with
    | none => default
    | some (.num q) => q
    | some .nonNumeric => default

/-- Digit assembly for fixed-point rendering: print the scaled integer m with
a decimal point d digits from the right. -/
def formatFixedInt (m : ℤ) (d : ℕ) : String :=
  let sign := if m < 0 then "-" else ""
  let a := m.natAbs
  let ip := a / 10 ^ d
  let fp := a % 10 ^ d
  let fps := toString fp
  let pad := String.mk (List.replicate (d - fps.length) (Char.ofNat 48))
  if d = 0 then sign ++ toString ip
  else sign ++ toString ip ++ "." ++ pad ++ fps

/-- Fixed-point decimal rendering with d fractional digits, modelling the
Python format specifiers :.1f and :.2f used by app.py. -/
def formatFixed (q : ℚ) (d : ℕ) : String :=
  formatFixedInt (round (q * (10 : ℚ) ^ d)) d

/-- Model of risk_narrative: the (label, paragraph) pair for a probability and
threshold.  The probability is rendered as a percentage with one decimal place
and the threshold with two, exactly as the f-strings of app.py lay the text
out. -/
def risk_narrative (prob thr : ℚ) : String × String :=
  let pct := formatFixed (prob * 100) 1 ++ "%"
  if prob ≥ thr then
    ("High stress risk",
      "Predicted probability of caregiver stress is " ++ pct ++
        " (≥ threshold " ++ formatFixed thr 2 ++ "). " ++
        "This screening suggests a high risk of stress. ")
  else
    ("Low stress risk",
      "Predicted probability of caregiver stress is " ++ pct ++
        " (< threshold " ++ formatFixed thr 2 ++ "). " ++
        "No immediate concern indicated by this model.")

/-- Model of the numeric predicted label pred = int(prob >= thr). -/
def pred (prob thr : ℚ) : ℕ := if prob ≥ thr then 1 else 0

/-- Classifier handle as probed by hasattr in app.py: the optional
predict_proba interface gives per-class probabilities for one row (component 2
is the positive-class column), and the optional decision_function interface
gives a margin score.  The fitted classifier itself is an opaque artifact, so
both interfaces are oracles over an abstract row type. -/
structure MLModel (α : Type) where
  predictProbaFn : Option (α → ℝ × ℝ)
  decisionFn : Option (α → ℝ)

/-- Logistic map 1 / (1 + e^-z) applied to a decision score, as computed by
np.exp in app.py. -/
noncomputable def logistic (z : ℝ) : ℝ := 1 / (1 + Real.exp (-z))

/-- Model of predict_proba in app.py: when the model exposes predict_proba,
take the positive-class column of its output; otherwise, when it exposes
decision_function, map the score through the logistic function; otherwise
raise RuntimeError. -/
noncomputable def predict_proba {α : Type} (model : MLModel α) (X : α) : Except String ℝ :=
  match model.predictProbaFn with
  | some f => .ok (f X).2
  | none =>
    match model.decisionFn with
    | some g => .ok (logistic (g X))
    | none => .error "Model does not support probability outputs"

/-- Value of explainer.expected_value (or of base_values): either a scalar or
an array of per-class baselines. -/
inductive ExpectedValue where
  | scalar (q : ℚ)
  | arr (qs : List ℚ)
deriving DecidableEq

/-- Shape of explainer.shap_values(X_single_model): a Python list of per-class
arrays, a structured explanation object carrying values and possibly
base_values, or a bare array. -/
inductive SVOut where
  | listOf (vs : List (List ℚ))
  | structured (values : List ℚ) (baseValues : Option ExpectedValue)
  | bare (values : List ℚ)
deriving DecidableEq

/-- Normalized attribution data handed to shap.Explanation: one contribution
vector and one baseline. -/
structure NormResult where
  shap_vec : List ℚ
  base : ExpectedValue
deriving DecidableEq

/-- Model of the conditional expression selecting the baseline in the list
branch of the dispatch: expected_value with index 1 when it is an array of
more than one entry, otherwise expected_value unchanged. -/
def expected_value_slice : ExpectedValue → ExpectedValue
  | .scalar q => .scalar q
  | .arr qs => if h : 1 < qs.length then .scalar (qs.get ⟨1, h⟩) else .arr qs

/-- Model of the _sv dispatch of app.py: a list shape takes element 1 when the
list has more than one entry (element 0 otherwise; an empty list raises, hence
none) together with the sliced expected_value; a structured shape takes its
values field and its base_values when present (expected_value otherwise); a
bare array is used as-is with expected_value as baseline.  The reshape(1, -1)
calls keep each vector intact, so they are not modelled separately. -/
def normalize_sv (sv : SVOut) (ev : ExpectedValue) : Option NormResult :=
  match sv with
  | .listOf vs =>
    let pick := if vs.length > 1 then vs.get? 1 else vs.get? 0
    match pick with
    | none => none
    | some v => some ⟨v, expected_value_slice ev⟩
  | .structured values baseValues =>
    match baseValues with
    | some b => some ⟨values, b⟩
    | none => some ⟨values, ev⟩
  | .bare values => some ⟨values, ev⟩

/-- Checks whether a baseline is one single scalar value. -/
def isScalarBase : ExpectedValue → Bool
  | .scalar _ => true
  | .arr _ => false

/-- Exception reaching the shared except handler of the submission block,
rendered there as the text Prediction failed followed by the message. -/
inductive PyError where
  | missingFeatures (missing : List String)
  | shapFailure (detail : String)
deriving DecidableEq

/-- UI element rendered by one submission, in order of the st.* calls that
Streamlit executes and displays immediately. -/
inductive RItem where
  | metric (name value : String)
  | errorBox (text : String)
  | successBox (text : String)
  | markdownText (text : String)
  | dataTable
  | subheader (text : String)
  | pyplotChart
  | predictionFailed (e : PyError)
deriving DecidableEq

/-- Model of the st.error / st.success dispatch on the predicted label. -/
def labelBox (prob thr : ℚ) : RItem :=
  if pred prob thr = 1 then .errorBox (risk_narrative prob thr).1
  else .successBox (risk_narrative prob thr).1

/-- Model of the if submitted: handler of app.py as the sequence of UI
elements it renders.  The classifier and preprocessor are opaque artifacts, so
the probability their composition yields for the record is the oracle
modelProb; shapExc tells whether the SHAP waterfall block raises and with
which message.  Streamlit renders each st.* call immediately, so an exception
in the SHAP block leaves every earlier element in place and appends the error
box of the except handler. -/
def runSubmission (user_inputs : InputDict) (thr : ℚ) (modelProb : ℚ)
    (show_shap : Bool) (shapExc : Option String) : List RItem :=
  match ensure_feature_dataframe user_inputs FINAL_FEATURES with
  | .error missing => [.predictionFailed (.missingFeatures missing)]
  | .ok _ =>
    let prob := modelProb
    let base : List RItem :=
      [.metric "Probability" (formatFixed (prob * 100) 2 ++ "%"),
       .metric "Threshold" (formatFixed thr 2),
       .metric "Predicted label" (toString (pred prob thr)),
       labelBox prob thr,
       .markdownText (risk_narrative prob thr).2,
       .markdownText "This is a screening aid, not a diagnosis.",
       .markdownText "**Input summary**",
       .dataTable]
    if show_shap then
      match shapExc with
      | none => base ++ [.subheader "SHAP waterfall (single case)", .pyplotChart]
      | some e =>
        base ++ [.subheader "SHAP waterfall (single case)",
                 .predictionFailed (.shapFailure e)]
    else base

/-- Oracle for the selenium calls of one attempt of wake_up_streamlit_app in
the workflows script: whether the driver starts, whether the resume button is
located within its 10 second wait, whether clicking it raises, and whether it
becomes invisible within its 30 second wait. -/
structure AttemptEnv where
  driverOk : Bool
  buttonFound : Bool
  clickOk : Bool
  buttonDisappears : Bool
deriving DecidableEq

/-- Result of one iteration of the retry loop of wake_up_streamlit_app: a
driver failure is caught and fails the attempt; an absent button means the app
is already awake, success; a click exception is caught and fails the attempt;
after a click, the attempt succeeds exactly when the button disappears within
its wait, and otherwise falls through to the next iteration. -/
def attemptResult (e : AttemptEnv) : Bool :=
  if !e.driverOk then false
  else if !e.buttonFound then true
  else if !e.clickOk then false
  else if e.buttonDisappears then true
  else false

/-- Model of wake_up_streamlit_app: run the attempts in order until one
returns True; after max_retries failed attempts return False.  The oracle list
supplies the environment of each successive attempt. -/
def wake_up_streamlit_app (envs : List AttemptEnv) (max_retries : ℕ) : Bool :=
  match max_retries, envs with
  | 0, _ => false
  | _ + 1, [] => false
  | n + 1, e :: rest =>
    if attemptResult e then true else wake_up_streamlit_app rest n

/-- Substring containment between strings, stated on their character lists. -/
def containsStr (s pat : String) : Prop := pat.data <:+: s.data

/-- Record of end-to-end scenario A of the specification, in schema order. -/
def scenarioA : InputDict :=
  [("daydurG", 12), ("healthR", 5), ("age_G", 60), ("adlR", 0), ("caredurG", 10),
   ("healthG", 5), ("ageR", 70), ("adlG", 0), ("hukou_cityR", 1), ("is_citycentre", 1)]

/-- Classifier exposing only a decision function, for concrete checks. -/
noncomputable def marginModel : MLModel Unit := ⟨none, some (fun _ => 0)⟩

/-- Classifier exposing predict_proba, for concrete checks. -/
noncomputable def probModel : MLModel Unit := ⟨some (fun _ => ((1 : ℝ) / 2, 1 / 2)), none⟩

/-- Classifier exposing neither interface, for concrete checks. -/
def unsupportedModel : MLModel Unit := ⟨none, none⟩

end CaregiverApp

namespace CaregiverApp

/-! Helper lemmas shared by the claim theorems. -/

lemma lookup_isSome_of_contains (l : InputDict) (a : String)
    (h : (l.map Prod.fst).contains a = true) : (l.lookup a).isSome = true := by
  induction l with
  | nil => simp at h
  | cons p l ih =>
    simp only [List.map_cons, List.contains_cons] at h
    cases hb : (a == p.1) with
    | true => simp [List.lookup, hb]
    | false =>
      simp only [hb, Bool.false_or] at h
      simp [List.lookup, hb, ih h]

lemma filter_missing_nil (input : InputDict)
    (hall : ∀ c ∈ FINAL_FEATURES, (input.map Prod.fst).contains c = true) :
    FINAL_FEATURES.filter (fun c => ! (input.map Prod.fst).contains c) = [] := by
  rw [List.filter_eq_nil_iff]
  intro a ha
  simp only [hall a ha, Bool.not_true, Bool.false_eq_true, not_false_eq_true]

lemma ensure_ok (input : InputDict)
    (hall : ∀ c ∈ FINAL_FEATURES, (input.map Prod.fst).contains c = true) :
    ensure_feature_dataframe input FINAL_FEATURES =
      .ok (FINAL_FEATURES.map (fun c => (c, input.lookup c))) := by
  simp only [ensure_feature_dataframe]
  rw [filter_missing_nil input hall]
  rfl

/-- C1: for every probability and threshold, the narrative label is High
exactly when p is at least t and Low exactly when p is below t, the numeric
label int(prob >= thr) is 1 exactly when p is at least t and 0 exactly when p
is below t, and at the boundary p = t both report High. -/
theorem label_threshold_boundary_inclusive (p t : ℚ) :
    ((risk_narrative p t).1 = "High stress risk" ↔ p ≥ t) ∧
    ((risk_narrative p t).1 = "Low stress risk" ↔ p < t) ∧
    (pred p t = 1 ↔ p ≥ t) ∧
    (pred p t = 0 ↔ p < t) ∧
    (p = t → (risk_narrative p t).1 = "High stress risk" ∧ pred p t = 1) := by
  by_cases hg : p ≥ t
  · refine ⟨iff_of_true ?_ hg, iff_of_false ?_ (not_lt.mpr hg),
      iff_of_true ?_ hg, iff_of_false ?_ (by simpa using not_lt.mpr hg),
      fun _ => ⟨?_, ?_⟩⟩ <;> simp [risk_narrative, pred, hg]
  · have hlt : p < t := not_le.mp (by simpa using hg)
    refine ⟨iff_of_false ?_ hg, iff_of_true ?_ hlt,
      iff_of_false ?_ hg, iff_of_true ?_ hlt, fun he => absurd he.ge hg⟩ <;>
      simp [risk_narrative, pred, hg]

/-- Witness for C1 at the boundary input p = t = one half. -/
theorem label_threshold_boundary_inclusive_witness :
    (risk_narrative (1 / 2) (1 / 2)).1 = "High stress risk" ∧
      pred (1 / 2) (1 / 2) = 1 :=
  (label_threshold_boundary_inclusive (1 / 2) (1 / 2)).2.2.2.2 rfl

/-- C4: load_threshold returns the stored float when the file is well-formed
JSON containing the key, and the default 0.5 when the file is missing, the
JSON is malformed, the key is absent, or the stored value is not convertible;
being a total function, it never raises instead of falling back. -/
theorem load_threshold_fallback (d : List (String × JVal)) (key : String) (q : ℚ) :
    (d.lookup key = some (.num q) → load_threshold (.valid d) key (1 / 2) = q) ∧
    load_threshold .missing key (1 / 2) = 1 / 2 ∧
    load_threshold .malformed key (1 / 2) = 1 / 2 ∧
    (d.lookup key = none → load_threshold (.valid d) key (1 / 2) = 1 / 2) ∧
    (d.lookup key = some .nonNumeric → load_threshold (.valid d) key (1 / 2) = 1 / 2) := by
  refine ⟨fun h => ?_, rfl, rfl, fun h => ?_, fun h => ?_⟩ <;> simp [load_threshold, h]

/-- Witness for C4 on a concrete threshold file holding 0.7 under XGBoost. -/
theorem load_threshold_fallback_witness :
    load_threshold (.valid [("XGBoost", .num (7 / 10))]) "XGBoost" (1 / 2) = 7 / 10 ∧
      load_threshold (.valid [("XGBoost", .num (7 / 10))]) "LightGBM" (1 / 2) = 1 / 2 ∧
      load_threshold .missing "XGBoost" (1 / 2) = 1 / 2 :=
  ⟨(load_threshold_fallback [("XGBoost", .num (7 / 10))] "XGBoost" (7 / 10)).1 rfl,
   (load_threshold_fallback [("XGBoost", .num (7 / 10))] "LightGBM" 0).2.2.2.1 rfl,
   (load_threshold_fallback [] "XGBoost" 0).2.1⟩

/-- C10: the numeric label, the narrative label, and the error or success
styling of the label box always agree: pred is 1 exactly when the narrative
says High, 0 exactly when it says Low, and the box is the error style with the
High text exactly when pred is 1. -/
theorem pred_label_narrative_agreement (p t : ℚ) :
    (pred p t = 1 ↔ (risk_narrative p t).1 = "High stress risk") ∧
    (pred p t = 0 ↔ (risk_narrative p t).1 = "Low stress risk") ∧
    (labelBox p t = .errorBox "High stress risk" ↔ pred p t = 1) ∧
    (labelBox p t = .successBox "Low stress risk" ↔ pred p t = 0) := by
  by_cases hg : p ≥ t <;> simp [pred, risk_narrative, labelBox, hg]

/-- C9: in the workflows keep-alive script, an attempt with a working driver
reports success when the resume button never shows up; after a successful
click, it reports success exactly when the button disappears within its wait;
and when the button persists, the attempt fails and the loop moves on to the
retry that follows. -/
theorem resume_prompt_attempt_outcomes (e : AttemptEnv) (rest : List AttemptEnv)
    (n : ℕ) (hd : e.driverOk = true) :
    (e.buttonFound = false → attemptResult e = true) ∧
    (e.buttonFound = true → e.clickOk = true →
      (attemptResult e = true ↔ e.buttonDisappears = true)) ∧
    (e.buttonFound = true → e.clickOk = true → e.buttonDisappears = false →
      attemptResult e = false ∧
        wake_up_streamlit_app (e :: rest) (n + 1) = wake_up_streamlit_app rest n) := by
  obtain ⟨d, bf, c, bd⟩ := e
  subst hd
  cases bf <;> cases c <;> cases bd <;>
    simp [attemptResult, wake_up_streamlit_app]

/-- Witness for C9: a stuck resume button fails the attempt and hands control
to the following attempts, while an absent button succeeds at once. -/
theorem resume_prompt_attempt_outcomes_witness :
    (attemptResult ⟨true, true, true, false⟩ = false ∧
      wake_up_streamlit_app [⟨true, true, true, false⟩] 1 =
        wake_up_streamlit_app [] 0) ∧
      attemptResult ⟨true, false, true, true⟩ = true :=
  ⟨(resume_prompt_attempt_outcomes ⟨true, true, true, false⟩ [] 0 rfl).2.2 rfl rfl rfl,
   (resume_prompt_attempt_outcomes ⟨true, false, true, true⟩ [] 0 rfl).1 rfl⟩

/-- C5: an input mapping that omits required feature names makes
ensure_feature_dataframe fail with the missing-features error whose payload
lists exactly the absent keys, every one of them; no row is produced, so no
missing key is ever silently defaulted. -/
theorem missing_features_error_names_all_absent (input : InputDict) (c0 : String)
    (h0 : c0 ∈ FINAL_FEATURES) (habs : (input.map Prod.fst).contains c0 = false) :
    ensure_feature_dataframe input FINAL_FEATURES =
        .error (FINAL_FEATURES.filter (fun c => ! (input.map Prod.fst).contains c)) ∧
      ∀ c, c ∈ FINAL_FEATURES.filter (fun c => ! (input.map Prod.fst).contains c) ↔
        (c ∈ FINAL_FEATURES ∧ (input.map Prod.fst).contains c = false) := by
  constructor
  · have hmem : c0 ∈ FINAL_FEATURES.filter (fun c => ! (input.map Prod.fst).contains c) :=
      List.mem_filter.mpr ⟨h0, by simp only [habs, Bool.not_false]⟩
    have hne : (FINAL_FEATURES.filter (fun c => ! (input.map Prod.fst).contains c)).isEmpty = false := by
      cases hfe : FINAL_FEATURES.filter (fun c => ! (input.map Prod.fst).contains c) with
      | nil => rw [hfe] at hmem; simp at hmem
      | cons x xs => simp
    simp only [ensure_feature_dataframe]
    rw [hne]
    simp
  · intro c
    rw [List.mem_filter]
    simp only [Bool.not_eq_true']

/-- Witness for C5: a record supplying only daydurG is rejected with an error
listing the other nine required features. -/
theorem missing_features_error_names_all_absent_witness :
    ensure_feature_dataframe [("daydurG", (12 : ℚ))] FINAL_FEATURES =
      .error (FINAL_FEATURES.filter
        (fun c => ! ([("daydurG", (12 : ℚ))].map Prod.fst).contains c)) :=
  (missing_features_error_names_all_absent [("daydurG", (12 : ℚ))] "healthR"
    (by decide) (by decide)).1

/-- C6: an input mapping containing all ten required feature names, in any
insertion order, is turned into a single row whose column order is exactly
FINAL_FEATURES, every cell holding the value looked up in the input. -/
theorem feature_dataframe_column_order (input : InputDict)
    (hall : ∀ c ∈ FINAL_FEATURES, (input.map Prod.fst).contains c = true) :
    ensure_feature_dataframe input FINAL_FEATURES =
        .ok (FINAL_FEATURES.map (fun c => (c, input.lookup c))) ∧
      (FINAL_FEATURES.map (fun c => (c, input.lookup c))).map Prod.fst = FINAL_FEATURES ∧
      ∀ c ∈ FINAL_FEATURES, (input.lookup c).isSome = true := by
  refine ⟨ensure_ok input hall, rfl, ?_⟩
  · intro c hc
    exact lookup_isSome_of_contains input c (hall c hc)

/-- Witness for C6: the scenario A record written in reversed insertion order
still yields the row in schema order. -/
theorem feature_dataframe_column_order_witness :
    ensure_feature_dataframe scenarioA.reverse FINAL_FEATURES =
      .ok (FINAL_FEATURES.map (fun c => (c, scenarioA.reverse.lookup c))) :=
  (feature_dataframe_column_order scenarioA.reverse (by decide)).1

/-- C2: predict_proba prefers the predict_proba interface and returns its
positive-class column, falls back to the logistic image of the decision score
(strictly between 0 and 1), raises the unsupported-model error when neither
interface exists, and any probability it does return lies in the closed unit
interval, granted the positive-class column of a probabilistic classifier is a
probability. -/
theorem predict_proba_policy {α : Type} (model : MLModel α) (X : α) :
    (∀ f, model.predictProbaFn = some f → predict_proba model X = .ok (f X).2) ∧
    (∀ g, model.predictProbaFn = none → model.decisionFn = some g →
      predict_proba model X = .ok (logistic (g X)) ∧
        0 < logistic (g X) ∧ logistic (g X) < 1) ∧
    (model.predictProbaFn = none → model.decisionFn = none →
      predict_proba model X = .error "Model does not support probability outputs") ∧
    (∀ f, model.predictProbaFn = some f → 0 ≤ (f X).2 → (f X).2 ≤ 1 →
      ∃ p, predict_proba model X = .ok p ∧ 0 ≤ p ∧ p ≤ 1) ∧
    (∀ g, model.predictProbaFn = none → model.decisionFn = some g →
      ∃ p, predict_proba model X = .ok p ∧ 0 ≤ p ∧ p ≤ 1) := by
  have hpos : ∀ z : ℝ, 0 < 1 + Real.exp (-z) := fun z => by positivity
  have hlog : ∀ z : ℝ, 0 < logistic z ∧ logistic z < 1 := by
    intro z
    unfold logistic
    refine ⟨by positivity, ?_⟩
    rw [div_lt_one (hpos z)]
    linarith [Real.exp_pos (-z)]
  refine ⟨?_, ?_, ?_, ?_, ?_⟩
  · intro f hf
    simp [predict_proba, hf]
  · intro g hf hg
    exact ⟨by simp [predict_proba, hf, hg], (hlog (g X)).1, (hlog (g X)).2⟩
  · intro hf hg
    simp [predict_proba, hf, hg]
  · intro f hf h0 h1
    exact ⟨(f X).2, by simp [predict_proba, hf], h0, h1⟩
  · intro g hf hg
    exact ⟨logistic (g X), by simp [predict_proba, hf, hg],
      le_of_lt (hlog (g X)).1, le_of_lt (hlog (g X)).2⟩

/-- Witness for C2 on concrete one-row models: a margin-only model goes
through the logistic map with a result strictly inside the unit interval, a
probabilistic model returns its positive-class column, and a model with
neither interface raises. -/
theorem predict_proba_policy_witness :
    (predict_proba marginModel () = .ok (logistic 0) ∧
      0 < logistic 0 ∧ logistic 0 < 1) ∧
      predict_proba probModel () = .ok ((1 : ℝ) / 2) ∧
      predict_proba unsupportedModel () =
        .error "Model does not support probability outputs" :=
  ⟨(predict_proba_policy marginModel ()).2.1 (fun _ => 0) rfl rfl,
   (predict_proba_policy probModel ()).1 (fun _ => ((1 : ℝ) / 2, 1 / 2)) rfl,
   (predict_proba_policy unsupportedModel ()).2.2.1 rfl rfl⟩

/-- C7, corrected: the list shape takes the index 1 per-class slice when the
list has more than one entry (index 0 for a singleton), with expected_value
sliced to its index 1 entry when it is a multi-entry array; the structured
shape keeps its values with base_values when present and expected_value
otherwise; the bare shape keeps its values with expected_value unchanged.  In
every case the contribution vector is one of the explainer vectors, so its
length is the schema length whenever the explainer emits vectors of that
length; the baseline index-1 selection, however, happens in the list branch
only. -/
theorem shap_normalization_shapes (vs : List (List ℚ)) (ev : ExpectedValue)
    (values : List ℚ) (b : ExpectedValue) :
    (1 < vs.length → ∃ v1, vs.get? 1 = some v1 ∧
      normalize_sv (.listOf vs) ev = some ⟨v1, expected_value_slice ev⟩) ∧
    (vs.length = 1 → ∃ v0, vs.get? 0 = some v0 ∧
      normalize_sv (.listOf vs) ev = some ⟨v0, expected_value_slice ev⟩) ∧
    (∀ q, expected_value_slice (.scalar q) = .scalar q) ∧
    (∀ qs : List ℚ, 1 < qs.length → ∃ q1, qs.get? 1 = some q1 ∧
      expected_value_slice (.arr qs) = .scalar q1) ∧
    normalize_sv (.structured values (some b)) ev = some ⟨values, b⟩ ∧
    normalize_sv (.structured values none) ev = some ⟨values, ev⟩ ∧
    normalize_sv (.bare values) ev = some ⟨values, ev⟩ ∧
    (∀ r, normalize_sv (.listOf vs) ev = some r → r.shap_vec ∈ vs) ∧
    ((∀ v ∈ vs, v.length = FINAL_FEATURES.length) → ∀ r,
      normalize_sv (.listOf vs) ev = some r →
        r.shap_vec.length = FINAL_FEATURES.length) := by
  have hmem : ∀ r, normalize_sv (.listOf vs) ev = some r → r.shap_vec ∈ vs := by
    intro r hr
    simp only [normalize_sv] at hr
    by_cases hl : vs.length > 1
    · rw [if_pos hl] at hr
      cases hget : vs.get? 1 with
      | none => rw [hget] at hr; exact Option.noConfusion hr
      | some v =>
        rw [hget] at hr
        injection hr with hr
        rw [← hr]
        exact List.get?_mem hget
    · rw [if_neg hl] at hr
      cases hget : vs.get? 0 with
      | none => rw [hget] at hr; exact Option.noConfusion hr
      | some v =>
        rw [hget] at hr
        injection hr with hr
        rw [← hr]
        exact List.get?_mem hget
  refine ⟨?_, ?_, fun q => rfl, ?_, rfl, rfl, rfl, hmem, ?_⟩
  · intro h
    have hv : vs.get? 1 = some (vs.get ⟨1, h⟩) := List.get?_eq_get h
    refine ⟨vs.get ⟨1, h⟩, hv, ?_⟩
    simp only [normalize_sv, if_pos h]
    rw [hv]
  · intro h
    have h0 : 0 < vs.length := by omega
    have hnot : ¬ vs.length > 1 := by omega
    have hv : vs.get? 0 = some (vs.get ⟨0, h0⟩) := List.get?_eq_get h0
    refine ⟨vs.get ⟨0, h0⟩, hv, ?_⟩
    simp only [normalize_sv, if_neg hnot]
    rw [hv]
  · intro qs h
    have hv : qs.get? 1 = some (qs.get ⟨1, h⟩) := List.get?_eq_get h
    exact ⟨qs.get ⟨1, h⟩, hv, by simp [expected_value_slice, h]⟩
  · intro hlen r hr
    exact hlen r.shap_vec (hmem r hr)

/-- Counterexample for C7 as stated: a bare-array explainer output paired with
a multi-entry expected_value keeps the whole array as baseline; no index 1
slice is selected and the baseline is not a single scalar. -/
theorem shap_bare_multi_expected_counterexample :
    normalize_sv (.bare [0, 0, 0, 0, 0, 0, 0, 0, 0, 0]) (.arr [1, 2]) =
        some ⟨[0, 0, 0, 0, 0, 0, 0, 0, 0, 0], .arr [1, 2]⟩ ∧
      isScalarBase (ExpectedValue.arr [(1 : ℚ), 2]) = false :=
  ⟨rfl, rfl⟩

/-- Witness for C7: a two-class list output with a two-entry expected_value is
normalized to the positive-class slice and the positive-class baseline, and a
structured output keeps its base_values. -/
theorem shap_normalization_shapes_witness :
    (∃ v1, [[(0 : ℚ), 0, 0, 0, 0, 0, 0, 0, 0, 0],
        [(1 : ℚ), 1, 1, 1, 1, 1, 1, 1, 1, 1]].get? 1 = some v1 ∧
      normalize_sv
          (.listOf [[(0 : ℚ), 0, 0, 0, 0, 0, 0, 0, 0, 0],
            [(1 : ℚ), 1, 1, 1, 1, 1, 1, 1, 1, 1]])
          (.arr [0, 1]) =
        some ⟨v1, expected_value_slice (.arr [0, 1])⟩) ∧
      normalize_sv (.structured [(2 : ℚ), 2, 2, 2, 2, 2, 2, 2, 2, 2]
          (some (.scalar 0))) (.scalar 1) =
        some ⟨[(2 : ℚ), 2, 2, 2, 2, 2, 2, 2, 2, 2], .scalar 0⟩ :=
  ⟨(shap_normalization_shapes
      [[(0 : ℚ), 0, 0, 0, 0, 0, 0, 0, 0, 0], [(1 : ℚ), 1, 1, 1, 1, 1, 1, 1, 1, 1]]
      (.arr [0, 1]) [] (.scalar 0)).1 (by decide),
   (shap_normalization_shapes [] (.scalar 1) [(2 : ℚ), 2, 2, 2, 2, 2, 2, 2, 2, 2]
      (.scalar 0)).2.2.2.2.1⟩

/-- Counterexample for C3 as stated: on the scenario A record, with the SHAP
waterfall enabled and raising, the rendered output does contain the
request-level Prediction failed error box, because the SHAP block sits inside
the same try/except as the prediction. -/
theorem shap_failure_surfaces_prediction_failed :
    RItem.predictionFailed (.shapFailure "waterfall raised") ∈
      runSubmission scenarioA (1 / 2) (3 / 10) true (some "waterfall raised") := by
  have hok : ensure_feature_dataframe scenarioA FINAL_FEATURES =
      .ok (FINAL_FEATURES.map (fun c => (c, scenarioA.lookup c))) :=
    ensure_ok scenarioA (by decide)
  simp [runSubmission, hok]

/-- C3, corrected: when the prediction succeeds and the SHAP block raises, the
probability metric, the styled label box, and the narrative paragraph all stay
in the rendered output (Streamlit had already rendered them), but the failure
also surfaces as the request-level Prediction failed error box appended by the
shared except handler. -/
theorem shap_failure_keeps_results_and_reports_failure (input : InputDict)
    (thr prob : ℚ) (e : String)
    (hall : ∀ c ∈ FINAL_FEATURES, (input.map Prod.fst).contains c = true) :
    RItem.metric "Probability" (formatFixed (prob * 100) 2 ++ "%") ∈
        runSubmission input thr prob true (some e) ∧
      labelBox prob thr ∈ runSubmission input thr prob true (some e) ∧
      RItem.markdownText (risk_narrative prob thr).2 ∈
        runSubmission input thr prob true (some e) ∧
      RItem.predictionFailed (.shapFailure e) ∈
        runSubmission input thr prob true (some e) := by
  have hok := ensure_ok input hall
  refine ⟨?_, ?_, ?_, ?_⟩ <;> simp [runSubmission, hok]

/-- Witness for C3 on the scenario A record with probability 0.3, threshold
0.5, and a raising SHAP block. -/
theorem shap_failure_keeps_results_and_reports_failure_witness :
    RItem.metric "Probability" (formatFixed ((3 : ℚ) / 10 * 100) 2 ++ "%") ∈
        runSubmission scenarioA (1 / 2) (3 / 10) true (some "boom") ∧
      labelBox (3 / 10) (1 / 2) ∈
        runSubmission scenarioA (1 / 2) (3 / 10) true (some "boom") ∧
      RItem.markdownText (risk_narrative (3 / 10) (1 / 2)).2 ∈
        runSubmission scenarioA (1 / 2) (3 / 10) true (some "boom") ∧
      RItem.predictionFailed (.shapFailure "boom") ∈
        runSubmission scenarioA (1 / 2) (3 / 10) true (some "boom") :=
  shap_failure_keeps_results_and_reports_failure scenarioA (1 / 2) (3 / 10) "boom"
    (by decide)

lemma risk_narrative_of_ge (p t : ℚ) (h : p ≥ t) :
    risk_narrative p t =
      ("High stress risk",
        "Predicted probability of caregiver stress is " ++
          (formatFixed (p * 100) 1 ++ "%") ++
          " (≥ threshold " ++ formatFixed t 2 ++ "). " ++
          "This screening suggests a high risk of stress. ") := by
  simp [risk_narrative, h]

lemma risk_narrative_of_lt (p t : ℚ) (h : p < t) :
    risk_narrative p t =
      ("Low stress risk",
        "Predicted probability of caregiver stress is " ++
          (formatFixed (p * 100) 1 ++ "%") ++
          " (< threshold " ++ formatFixed t 2 ++ "). " ++
          "No immediate concern indicated by this model.") := by
  simp [risk_narrative, not_le.mpr h]

lemma containsStr_parts (pre pat post s : String)
    (h : s.data = pre.data ++ pat.data ++ post.data) : containsStr s pat :=
  ⟨pre.data, post.data, h.symm⟩

lemma formatFixed_pct_scenarioA : formatFixed ((3 : ℚ) / 10 * 100) 1 = "30.0" := by
  unfold formatFixed
  rw [show (3 : ℚ) / 10 * 100 * (10 : ℚ) ^ 1 = ((300 : ℤ) : ℚ) by norm_num,
    round_intCast]
  rfl

lemma formatFixed_thr_scenarioA : formatFixed ((1 : ℚ) / 2) 2 = "0.50" := by
  unfold formatFixed
  rw [show (1 : ℚ) / 2 * (10 : ℚ) ^ 2 = ((50 : ℤ) : ℚ) by norm_num, round_intCast]
  rfl

/-- C8: every narrative paragraph embeds the probability rendered as a
percentage with one decimal place and restates the threshold rendered with two
decimals; concretely, probability 0.30 against threshold 0.50 is labelled Low
with a paragraph containing 30.0% and the text < threshold 0.50. -/
theorem narrative_reporting_format :
    (∀ p t : ℚ, containsStr (risk_narrative p t).2 (formatFixed (p * 100) 1 ++ "%")) ∧
    (∀ p t : ℚ, containsStr (risk_narrative p t).2 ("threshold " ++ formatFixed t 2)) ∧
    (risk_narrative (3 / 10) (1 / 2)).1 = "Low stress risk" ∧
    containsStr (risk_narrative (3 / 10) (1 / 2)).2 "30.0%" ∧
    containsStr (risk_narrative (3 / 10) (1 / 2)).2 "< threshold 0.50" := by
  have hlow := risk_narrative_of_lt (3 / 10) (1 / 2) (by norm_num)
  have hpara : (risk_narrative ((3 : ℚ) / 10) (1 / 2)).2 =
      "Predicted probability of caregiver stress is " ++ ("30.0" ++ "%") ++
        " (< threshold " ++ "0.50" ++ "). " ++
        "No immediate concern indicated by this model." := by
    rw [hlow, formatFixed_pct_scenarioA, formatFixed_thr_scenarioA]
  refine ⟨?_, ?_, by rw [hlow], ?_, ?_⟩
  · intro p t
    rcases le_or_lt t p with h | h
    · rw [risk_narrative_of_ge p t h]
      refine containsStr_parts "Predicted probability of caregiver stress is "
        (formatFixed (p * 100) 1 ++ "%")
        (" (≥ threshold " ++ formatFixed t 2 ++ "). " ++
          "This screening suggests a high risk of stress. ") _ ?_
      simp [String.data_append, List.append_assoc]
    · rw [risk_narrative_of_lt p t h]
      refine containsStr_parts "Predicted probability of caregiver stress is "
        (formatFixed (p * 100) 1 ++ "%")
        (" (< threshold " ++ formatFixed t 2 ++ "). " ++
          "No immediate concern indicated by this model.") _ ?_
      simp [String.data_append, List.append_assoc]
  · intro p t
    have hge : (" (≥ threshold " : String).data =
        (" (≥ " : String).data ++ ("threshold " : String).data := rfl
    have hlt2 : (" (< threshold " : String).data =
        (" (< " : String).data ++ ("threshold " : String).data := rfl
    rcases le_or_lt t p with h | h
    · rw [risk_narrative_of_ge p t h]
      refine containsStr_parts
        ("Predicted probability of caregiver stress is " ++
          (formatFixed (p * 100) 1 ++ "%") ++ " (≥ ")
        ("threshold " ++ formatFixed t 2)
        ("). " ++ "This screening suggests a high risk of stress. ") _ ?_
      simp [String.data_append, List.append_assoc, hge]
    · rw [risk_narrative_of_lt p t h]
      refine containsStr_parts
        ("Predicted probability of caregiver stress is " ++
          (formatFixed (p * 100) 1 ++ "%") ++ " (< ")
        ("threshold " ++ formatFixed t 2)
        ("). " ++ "No immediate concern indicated by this model.") _ ?_
      simp [String.data_append, List.append_assoc, hlt2]
  · refine containsStr_parts "Predicted probability of caregiver stress is "
      "30.0%"
      (" (< threshold " ++ "0.50" ++ "). " ++
        "No immediate concern indicated by this model.") _ ?_
    rw [hpara]
    rfl
  · refine containsStr_parts
      ("Predicted probability of caregiver stress is " ++ ("30.0" ++ "%") ++ " (")
      "< threshold 0.50"
      ("). " ++ "No immediate concern indicated by this model.") _ ?_
    rw [hpara]
    rfl

end CaregiverApp
